import Mathlib

/-!
Shallow embedding of `src/benchmark_analysis.py` (a serial-vs-parallel
benchmark orchestrator).  Python strings are modelled as `List Char`
(a Python `str` is a sequence of Unicode code points), Python floats as
exact rationals `ℚ`, raised exceptions as the `Except` monad, and the
filesystem state touched by `tempfile.TemporaryDirectory` as an explicit
list of existing directory names threaded through `run_benchmark`.
The external executable is an oracle (`ExtBehavior`): the harness only
observes its combined output text, a timeout, or a raised exception.
-/

/-- Exceptions that can escape a modelled Python call uncaught. -/
inductive PyExc where
  /-- A `ValueError` raised by `float()` on a malformed token. -/
  | valueError : PyExc
  /-- A `TypeError` raised by formatting `None` with `:.2f` (or arithmetic on `None`). -/
  | typeError : PyExc
  /-- an exception raised by `shutil.copy2` (line 29), outside the `try` block. -/
  | copyError (msg : List Char) : PyExc
deriving DecidableEq

/-- Whether `pat` is a prefix of the second list (helper for substring search). -/
def prefixOf : List Char → List Char → Bool
  | [], _ => true
  | _ :: _, [] => false
  | a :: as, b :: bs => a = b && prefixOf as bs

/-- Python `pat in line` (literal substring containment, line 16). -/
def containsSub (pat : List Char) : List Char → Bool
  | [] => pat.isEmpty
  | c :: rest => prefixOf pat (c :: rest) || containsSub pat rest

/-- Python `output.split('\n')` (line 15): split on every newline,
keeping empty pieces. -/
def splitLines : List Char → List (List Char)
  | [] => [[]]
  | c :: cs =>
    if c = '\n' then [] :: splitLines cs
    else
      match splitLines cs with
      | [] => [[c]]
      | l :: ls => (c :: l) :: ls

/-- Python `line.replace(',', '')` (line 19): drop every comma. -/
def stripCommas (l : List Char) : List Char := l.filter (fun c => c ≠ ',')

/-- Character class of the regex `[\d.]+` (line 19): a digit or a dot.
(Python `\d` also matches non-ASCII Unicode digits; those never occur in
the tool's output and are not modelled.) -/
def isNumChar (c : Char) : Bool := c.isDigit || c = '.'

/-- Model of `re.search` with the pattern of line 19: the first maximal run of
digits/dots in the line, or `none` when the line has no such character. -/
def firstToken : List Char → Option (List Char)
  | [] => none
  | c :: cs =>
    if isNumChar c then some (c :: cs.takeWhile isNumChar)
    else firstToken cs

/-- Value of a list of decimal digits read left to right. -/
def digitsToNat (ds : List Char) : Nat :=
  ds.foldl (fun a c => 10 * a + (c.toNat - 48)) 0

/-- A digit/dot token is accepted by Python `float()` iff it has at most
one dot and at least one digit (`float("5.")`, `float(".5")` succeed;
`float(".")`, `float("1.2.3")` raise `ValueError`). -/
def tokenWellFormed (t : List Char) : Bool :=
  t.count '.' ≤ 1 && t.any (fun c => c.isDigit)

/-- Python `float(match.group())` (line 21) on a digit/dot token:
`some` value on success, `none` when `float()` raises `ValueError`. -/
def pyFloatOfToken (t : List Char) : Option ℚ :=
  if tokenWellFormed t then
    some (mkRat
      (digitsToNat (t.takeWhile (fun c => c ≠ '.')) *
          10 ^ ((t.dropWhile (fun c => c ≠ '.')).drop 1).length +
        digitsToNat ((t.dropWhile (fun c => c ≠ '.')).drop 1))
      (10 ^ ((t.dropWhile (fun c => c ≠ '.')).drop 1).length))
  else none

/-- The loop of `extract_metric` (lines 15-22) over the split lines:
first line containing the label is inspected; if it has a numeric token
the token is parsed (raising on a malformed token, i.e. `Except.error`);
if it has no numeric token the scan falls through to later lines. -/
def extractFromLines (name : List Char) : List (List Char) → Except PyExc (Option ℚ)
  | [] => .ok none
  | line :: rest =>
    if containsSub name line then
      match firstToken (stripCommas line) with
      | some tok =>
        match pyFloatOfToken tok with
        | some v => .ok (some v)
        | none => .error .valueError
      | none => extractFromLines name rest
    else extractFromLines name rest

/-- The function `extract_metric(output, metric_name)` (lines 13-22). -/
def extract_metric (output name : List Char) : Except PyExc (Option ℚ) :=
  extractFromLines name (splitLines output)

/-- Whether the constructor is `ok` (Python: the call returned normally). -/
def exOk {ε α : Type} : Except ε α → Bool
  | .ok _ => true
  | .error _ => false

deriving instance DecidableEq for Except

/-- The label `"运行时间"` (run time) hard-coded at line 40. -/
def timeLabel : List Char := ("运行时间").toList

/-- The label `"处理速度"` (throughput) hard-coded at line 41. -/
def speedLabel : List Char := ("处理速度").toList

/-- The constant `EXE_PATH` (line 11). -/
def EXE_PATH : String :=
  "/Users/Sakuzy/code/rust/MacinMeter-DynamicRange-Tool/target/release/MacinMeter-DynamicRange-Tool-foo_dr"

/-- Command construction of lines 31-34: `cmd = [str(EXE_PATH), tmpdir]`,
then `cmd.append("--serial")` only when `serial` is true. -/
def buildCmd (tmpdir : String) (serial : Bool) : List String :=
  if serial then [EXE_PATH, tmpdir] ++ [("--serial")] else [EXE_PATH, tmpdir]

/-- Observable behaviour of the opaque external executable for one
invocation (`subprocess.check_output`, line 37): it produces combined
stdout+stderr text, exceeds the timeout (`TimeoutExpired`), or raises any
other exception (`CalledProcessError` on non-zero exit, launch failure, ...). -/
inductive ExtBehavior where
  | output (s : List Char) : ExtBehavior
  | timeout : ExtBehavior
  | raiseExc (msg : List Char) : ExtBehavior
deriving DecidableEq

/-- Environment of one `run_benchmark` call: whether `shutil.copy2`
(line 29) raises, and what the external process then does. -/
structure ExecEnv where
  copyFails : Option (List Char)
  ext : ExtBehavior
deriving DecidableEq

/-- The dict returned by `run_benchmark` (lines 43-51): either the
success dict `{'time': ..., 'speed': ..., 'output': output[:500]}` (each
metric possibly `None`) or the failure dict `{'error': ...}`. -/
inductive RunResult where
  | metrics (time speed : Option ℚ) (out500 : List Char) : RunResult
  | err (msg : List Char) : RunResult
deriving DecidableEq

/-- Body of the `with tempfile.TemporaryDirectory()` block (lines 27-51):
copy the sample (an exception here escapes uncaught, there is no enclosing
`try`), invoke the external tool, extract the two metrics (a `ValueError`
raised by `extract_metric` is caught by `except Exception`, line 50, and
becomes an error dict), and build the result dict. -/
def run_result (env : ExecEnv) : Except PyExc RunResult :=
  match env.copyFails with
  | some msg => .error (.copyError msg)
  | none =>
    match env.ext with
    | .timeout => .ok (.err (("Timeout").toList))
    | .raiseExc m => .ok (.err m)
    | .output s =>
      match extract_metric s timeLabel with
      | .error _ => .ok (.err (("could not convert string to float").toList))
      | .ok t =>
        match extract_metric s speedLabel with
        | .error _ => .ok (.err (("could not convert string to float").toList))
        | .ok sp => .ok (.metrics t sp (s.take 500))

/-- Creation of the scratch directory by `tempfile.TemporaryDirectory()`. -/
def fsCreate (fs : List String) (d : String) : List String := d :: fs

/-- Removal of the scratch directory by the `with` exit handler. -/
def fsRemove (fs : List String) (d : String) : List String := fs.erase d

/-- The function `run_benchmark(sample_path, serial)` (lines 24-51) over an explicit
filesystem state `fs` (the set of existing directories): the scratch
directory `tmpdir` (a fresh `mkdtemp` name) is created, the `with` body
runs (`run_result`), and the directory is removed on every exit path —
normal return or propagating exception alike.  The returned pair is the
filesystem state after the call and the call's outcome.  The command line
the body passes to `subprocess` is `buildCmd tmpdir serial`; the external
tool itself is the oracle `env.ext`, so the command is not consumed
further by the model. -/
def run_benchmark (fs : List String) (tmpdir : String) (serial : Bool) (env : ExecEnv) :
    List String × Except PyExc RunResult :=
  (fsRemove (fsCreate fs tmpdir) tmpdir, run_result env)

/-- The two execution modes of line 70 (`serial=True`) and line 81
(`serial=False`). -/
inductive Mode where
  | serialMode : Mode
  | parallelMode : Mode
deriving DecidableEq

/-- The `serial=` keyword argument passed for each mode. -/
def modeFlag : Mode → Bool
  | .serialMode => true
  | .parallelMode => false

/-- One enumerated sample together with the behaviour of its two external
invocations (the oracle for the opaque external tool). -/
structure SampleCase where
  name : String
  size_mb : Nat
  serialEnv : ExecEnv
  parallelEnv : ExecEnv
deriving DecidableEq

/-- The per-sample result dict appended to `results` (lines 93-101).
All metric fields hold floats here: `main` has already formatted each of
them with `:.2f` (lines 75 and 86) before the dict is built, so `None`
values cannot reach it. -/
structure Record where
  name : String
  size_mb : Nat
  serial_time : ℚ
  parallel_time : ℚ
  serial_speed : ℚ
  parallel_speed : ℚ
  speedup : ℚ
deriving DecidableEq

/-- One iteration of the `for` loop of `main` (lines 63-101) for one
sample: serial run first (line 70); on its error dict, `continue`
(skip).  On success, line 75 formats `time` and `speed` with `:.2f` — a
`TypeError` escapes if either is `None`.  Then the parallel run
(line 81), with the same error/format handling, then the speedup
(line 89: `serial/parallel if parallel else 0`, Python truthiness) and
the record.  Returns the trace of `run_benchmark` invocations made for
this sample and `.ok (some record)` / `.ok none` (skip) / `.error`
(an exception that aborts `main`). -/
def processSample (c : SampleCase) : List (String × Mode) × Except PyExc (Option Record) :=
  match (run_benchmark [] ("scratch") (modeFlag .serialMode) c.serialEnv).2 with
  | .error e => ([(c.name, Mode.serialMode)], .error e)
  | .ok (.err _) => ([(c.name, Mode.serialMode)], .ok none)
  | .ok (.metrics st ss _) =>
    match st, ss with
    | some stv, some ssv =>
      match (run_benchmark [] ("scratch") (modeFlag .parallelMode) c.parallelEnv).2 with
      | .error e => ([(c.name, Mode.serialMode), (c.name, Mode.parallelMode)], .error e)
      | .ok (.err _) => ([(c.name, Mode.serialMode), (c.name, Mode.parallelMode)], .ok none)
      | .ok (.metrics pt ps _) =>
        match pt, ps with
        | some ptv, some psv =>
          ([(c.name, Mode.serialMode), (c.name, Mode.parallelMode)],
            .ok (some
              { name := c.name
                size_mb := c.size_mb
                serial_time := stv
                parallel_time := ptv
                serial_speed := ssv
                parallel_speed := psv
                speedup := if ptv ≠ 0 then stv / ptv else 0 }))
        | _, _ =>
          ([(c.name, Mode.serialMode), (c.name, Mode.parallelMode)], .error .typeError)
    | _, _ => ([(c.name, Mode.serialMode)], .error .typeError)

/-- The whole `for` loop of `main` over the enumerated samples: an
uncaught exception in one iteration aborts the loop (and `main`); a skip
or a record lets the next sample proceed.  Returns the full invocation
trace and either the final `results` list or the aborting exception. -/
def mainLoop : List SampleCase → List (String × Mode) × Except PyExc (List Record)
  | [] => ([], .ok [])
  | c :: rest =>
    match processSample c with
    | (tr, .error e) => (tr, .error e)
    | (tr, .ok orec) =>
      match mainLoop rest with
      | (tr2, .error e) => (tr ++ tr2, .error e)
      | (tr2, .ok recs) =>
        (tr ++ tr2, .ok (match orec with | none => recs | some r => r :: recs))

/-- Insertion of one name into a sorted list (for Python `sorted`). -/
def insertSorted (x : String) : List String → List String
  | [] => [x]
  | y :: ys => if x < y then x :: y :: ys else y :: insertSorted x ys

/-- Python `sorted` on file names (line 57). -/
def sortedNames (l : List String) : List String := l.foldr insertSorted []

/-- Enumeration `sorted(SAMPLES_DIR.glob(...))` with pattern `*.flac` (line 57), over a model of the
samples directory: `none` when the directory does not exist, otherwise
`some` of its entry names.  `pathlib.Path.glob` on a non-existent
directory yields nothing (its selector returns an empty iterator when the
parent is not a directory), so no exception path exists and the result is
always `Except.ok`; the `Except` type records that the call is the only
place an enumeration failure could surface. -/
def enumerateSamples (dir : Option (List String)) : Except PyExc (List String) :=
  match dir with
  | none => .ok (sortedNames [])
  | some entries =>
      .ok (sortedNames (entries.filter (fun n => n.endsWith (".flac"))))

/-- A size bucket of the analysis section (lines 119-133). -/
inductive Bucket where
  | small : Bucket
  | medium : Bucket
  | large : Bucket
deriving DecidableEq

/-- One printed bucket line: which bucket, how many records, and their
mean speedup. -/
structure BucketSummary where
  bucket : Bucket
  count : Nat
  avgSpeedup : ℚ
deriving DecidableEq

/-- The bucketed aggregation of lines 119-133: the three filters (lines
119-121) and, for each non-empty bucket in the order small, medium,
large, one summary with the bucket's record count and the arithmetic mean
of its speedups (lines 123-133). -/
def bucketSummaries (results : List Record) : List BucketSummary :=
  (if (results.filter (fun r => r.size_mb < 100)).isEmpty then []
    else [⟨Bucket.small, (results.filter (fun r => r.size_mb < 100)).length,
      ((results.filter (fun r => r.size_mb < 100)).map (fun r => r.speedup)).sum /
        ((results.filter (fun r => r.size_mb < 100)).length : ℚ)⟩]) ++
  (if (results.filter (fun r => 100 ≤ r.size_mb && r.size_mb < 400)).isEmpty then []
    else [⟨Bucket.medium, (results.filter (fun r => 100 ≤ r.size_mb && r.size_mb < 400)).length,
      ((results.filter (fun r => 100 ≤ r.size_mb && r.size_mb < 400)).map (fun r => r.speedup)).sum /
        ((results.filter (fun r => 100 ≤ r.size_mb && r.size_mb < 400)).length : ℚ)⟩]) ++
  (if (results.filter (fun r => r.size_mb ≥ 400)).isEmpty then []
    else [⟨Bucket.large, (results.filter (fun r => r.size_mb ≥ 400)).length,
      ((results.filter (fun r => r.size_mb ≥ 400)).map (fun r => r.speedup)).sum /
        ((results.filter (fun r => r.size_mb ≥ 400)).length : ℚ)⟩])

/-- Bucket membership exactly as the specification words it: small =
size < 100; medium = 100 ≤ size < 400; large = size ≥ 400 (half-open
boundaries). -/
def inBucketB (b : Bucket) (s : Nat) : Bool :=
  match b with
  | .small => s < 100
  | .medium => 100 ≤ s && s < 400
  | .large => 400 ≤ s

/-- The aggregator as the specification words it: one `BucketSummary` per
non-empty bucket, in bucket order small, medium, large, carrying the
bucket's record count and the arithmetic mean of its speedups; empty
buckets are omitted. -/
def specAggregate (results : List Record) : List BucketSummary :=
  [Bucket.small, Bucket.medium, Bucket.large].filterMap (fun b =>
    if (results.filter (fun r => inBucketB b r.size_mb)).isEmpty then none
    else some ⟨b, (results.filter (fun r => inBucketB b r.size_mb)).length,
      ((results.filter (fun r => inBucketB b r.size_mb)).map (fun r => r.speedup)).sum /
        ((results.filter (fun r => inBucketB b r.size_mb)).length : ℚ)⟩)

/-- A line both contains the label and yields a numeric token. -/
def lineYieldsToken (name l : List Char) : Bool :=
  containsSub name l && (firstToken (stripCommas l)).isSome

/-- The extractor as the (amended) specification words it: the result is
determined by the first line that contains the label AND has a numeric
token; that token is parsed (`ValueError` when malformed); if no matching
line yields a token the result is absent. -/
def extractSpec (name : List Char) (lines : List (List Char)) : Except PyExc (Option ℚ) :=
  match (lines.filter (lineYieldsToken name)).head? with
  | none => .ok none
  | some l =>
    match firstToken (stripCommas l) with
    | none => .ok none
    | some tok =>
      match pyFloatOfToken tok with
      | some v => .ok (some v)
      | none => .error .valueError

/-- Accepts an absent token or a well-formed one (hypothesis shape for
the no-raise theorem). -/
def tokenOk : Option (List Char) → Bool
  | none => true
  | some t => tokenWellFormed t

/-- The serial run behaviour used by the C1 witness: both metrics parse. -/
def envOkSerial : ExecEnv :=
  ⟨none, .output (("运行时间: 4 秒\n处理速度: 10 MB/s").toList)⟩

/-- The parallel run behaviour used by the C1 witness. -/
def envOkParallel : ExecEnv :=
  ⟨none, .output (("运行时间: 2 秒\n处理速度: 20 MB/s").toList)⟩

/-- A sample whose two runs both succeed with all metrics present. -/
def sampleOk : SampleCase :=
  { name := "ok.flac", size_mb := 50, serialEnv := envOkSerial, parallelEnv := envOkParallel }

/-- The record `processSample sampleOk` emits. -/
def recOk : Record :=
  { name := "ok.flac", size_mb := 50, serial_time := mkRat 4 1, parallel_time := mkRat 2 1,
    serial_speed := mkRat 10 1, parallel_speed := mkRat 20 1,
    speedup := mkRat 4 1 / mkRat 2 1 }

/-- A sample whose serial run raises (for example a non-zero exit). -/
def sampleSerialFail : SampleCase :=
  ⟨("f.flac"), 99, ⟨none, ExtBehavior.raiseExc (("exit status 1").toList)⟩, envOkParallel⟩

/-- Any float parsed from a digit/dot token is nonnegative. -/
theorem pyFloatOfToken_nonneg (t : List Char) (v : ℚ) (h : pyFloatOfToken t = some v) :
    0 ≤ v := by
  unfold pyFloatOfToken at h
  split at h
  · injection h with h'
    rw [← h', Rat.mkRat_eq_div]
    positivity
  · exact absurd h (by simp)

/-- A well-formed token always parses. -/
theorem pyFloatOfToken_isSome (t : List Char) (h : tokenWellFormed t = true) :
    (pyFloatOfToken t).isSome = true := by
  unfold pyFloatOfToken
  rw [if_pos h]
  rfl

/-- Any metric value the extractor's loop produces is nonnegative. -/
theorem extractFromLines_nonneg (name : List Char) (ls : List (List Char)) (v : ℚ)
    (h : extractFromLines name ls = .ok (some v)) : 0 ≤ v := by
  induction ls with
  | nil => exact absurd h (by simp [extractFromLines])
  | cons line rest ih =>
    unfold extractFromLines at h
    split at h
    · cases htk : firstToken (stripCommas line) with
      | some tok =>
        simp only [htk] at h
        cases hpf : pyFloatOfToken tok with
        | some w =>
          simp only [hpf] at h
          injection h with h'
          injection h' with h''
          exact h'' ▸ pyFloatOfToken_nonneg _ _ hpf
        | none =>
          simp only [hpf] at h
          exact absurd h (by simp)
      | none =>
        simp only [htk] at h
        exact ih h
    · exact ih h

/-- Any metric value `extract_metric` returns is nonnegative. -/
theorem extract_metric_nonneg (output name : List Char) (v : ℚ)
    (h : extract_metric output name = .ok (some v)) : 0 ≤ v :=
  extractFromLines_nonneg name (splitLines output) v h

/-- The elapsed-time metric in any success dict of `run_benchmark` is
nonnegative when present. -/
theorem run_result_time_nonneg (env : ExecEnv) (t sp : Option ℚ) (o : List Char)
    (h : run_result env = .ok (.metrics t sp o)) (v : ℚ) (hv : t = some v) : 0 ≤ v := by
  unfold run_result at h
  cases hcf : env.copyFails with
  | some m =>
    simp only [hcf] at h
    exact absurd h (by simp)
  | none =>
    simp only [hcf] at h
    cases hex : env.ext with
    | timeout =>
      simp only [hex] at h
      exact absurd h (by simp)
    | raiseExc m =>
      simp only [hex] at h
      exact absurd h (by simp)
    | output s =>
      simp only [hex] at h
      cases htime : extract_metric s timeLabel with
      | error e =>
        simp only [htime] at h
        exact absurd h (by simp)
      | ok t' =>
        simp only [htime] at h
        cases hsp : extract_metric s speedLabel with
        | error e =>
          simp only [hsp] at h
          exact absurd h (by simp)
        | ok sp' =>
          simp only [hsp] at h
          injection h with h'
          injection h' with h1 h2 h3
          subst h1
          subst hv
          exact extract_metric_nonneg _ _ _ htime

/-- If every matching line's token (when there is one) is well formed,
the extractor's loop returns normally. -/
theorem extractFromLines_isOk (name : List Char) (ls : List (List Char))
    (h : ∀ l ∈ ls, containsSub name l = true → tokenOk (firstToken (stripCommas l)) = true) :
    exOk (extractFromLines name ls) = true := by
  induction ls with
  | nil => rfl
  | cons line rest ih =>
    unfold extractFromLines
    split
    · rename_i hc
      have htok := h line (by simp) hc
      cases htk : firstToken (stripCommas line) with
      | some tok =>
        rw [htk] at htok
        obtain ⟨v, hv⟩ := Option.isSome_iff_exists.mp (pyFloatOfToken_isSome tok htok)
        simp only [htk, hv]
        rfl
      | none =>
        simp only [htk]
        exact ih (fun l hl hcl => h l (by simp [hl]) hcl)
    · exact ih (fun l hl hcl => h l (by simp [hl]) hcl)

/-- The extractor's loop agrees with the specification-side description:
the first matching line that yields a token decides the result. -/
theorem extractFromLines_eq_spec (name : List Char) (ls : List (List Char)) :
    extractFromLines name ls = extractSpec name ls := by
  induction ls with
  | nil => rfl
  | cons line rest ih =>
    unfold extractFromLines extractSpec
    by_cases hc : containsSub name line = true
    · rw [if_pos hc]
      match htk : firstToken (stripCommas line) with
      | some tok =>
        have hy : lineYieldsToken name line = true := by
          simp [lineYieldsToken, hc, htk]
        simp only [List.filter_cons, hy, if_pos, List.head?_cons]
        rw [htk]
      | none =>
        have hy : lineYieldsToken name line = false := by
          simp [lineYieldsToken, hc, htk]
        simp only [List.filter_cons, hy]
        rw [ih]
        rfl
    · rw [if_neg hc]
      have hy : lineYieldsToken name line = false := by
        simp [lineYieldsToken]
        intro h
        exact absurd h hc
      simp only [List.filter_cons, hy]
      rw [ih]
      rfl

/-- C8: for every invocation of the Isolated Run Executor, the external
command line is the executable path followed by the scratch directory as
the sole positional argument; the `--serial` flag is appended iff the
mode is serial, and in parallel mode no mode flag is passed. -/
theorem c8_command_line (tmpdir : String) :
    buildCmd tmpdir (modeFlag Mode.serialMode) = [EXE_PATH, tmpdir] ++ [("--serial")] ∧
    buildCmd tmpdir (modeFlag Mode.parallelMode) = [EXE_PATH, tmpdir] :=
  ⟨rfl, rfl⟩

/-- C9: for every outcome of a single `run_benchmark` call (success,
timeout, execution error, or even an uncaught copy failure), the scratch
directory created for that invocation no longer exists when the call
returns: the final filesystem state equals the initial one, and the
scratch directory (fresh, hence not pre-existing) is not in it. -/
theorem c9_scratch_removed (fs : List String) (tmpdir : String) (serialArg : Bool)
    (env : ExecEnv) (h : tmpdir ∉ fs) :
    (run_benchmark fs tmpdir serialArg env).1 = fs ∧
    tmpdir ∉ (run_benchmark fs tmpdir serialArg env).1 := by
  have h1 : (run_benchmark fs tmpdir serialArg env).1 = fs := by
    simp [run_benchmark, fsRemove, fsCreate]
  exact ⟨h1, by rw [h1]; exact h⟩

/-- Witness for C9 at a concrete call. -/
theorem c9_scratch_removed_witness :
    (run_benchmark [("d")] ("tmp") true ⟨none, ExtBehavior.timeout⟩).1 = [("d")] ∧
    ("tmp") ∉ (run_benchmark [("d")] ("tmp") true ⟨none, ExtBehavior.timeout⟩).1 :=
  c9_scratch_removed [("d")] ("tmp") true ⟨none, ExtBehavior.timeout⟩ (by decide)

/-- C10: a failure of `shutil.copy2` escapes `run_benchmark` uncaught
(it happens before the `try` block, so it is not converted into an error
dict) and aborts the entire benchmark run: `mainLoop` stops with the
exception and later samples are never processed. -/
theorem c10_copy_failure_aborts (fs : List String) (tmpdir : String) (serialArg : Bool)
    (msg : List Char) (ext : ExtBehavior) (n : String) (sz : Nat) (p : ExecEnv)
    (rest : List SampleCase) :
    run_result ⟨some msg, ext⟩ = .error (.copyError msg) ∧
    (run_benchmark fs tmpdir serialArg ⟨some msg, ext⟩).2 = .error (.copyError msg) ∧
    mainLoop ({ name := n, size_mb := sz, serialEnv := ⟨some msg, ext⟩, parallelEnv := p } :: rest) =
      ([(n, Mode.serialMode)], .error (.copyError msg)) :=
  ⟨rfl, rfl, rfl⟩

/-- C4 counterexample: with the samples directory missing, enumeration
returns normally (no `NotFound` condition is raised to the caller). -/
theorem c4_missing_dir_cex : exOk (enumerateSamples none) = true := rfl

/-- C4 (amended): when the samples directory does not exist,
`Path.glob` silently yields nothing, so enumeration returns an empty
sample list and the benchmark run completes normally over zero samples;
no `NotFound` condition is propagated. -/
theorem c4_missing_dir_empty :
    enumerateSamples none = .ok [] ∧ mainLoop [] = ([], .ok []) :=
  ⟨rfl, rfl⟩

/-- C2 counterexample: on a matching line whose first numeric token is
`"..."` (no digit, several dots), `float()` raises `ValueError`, so the
Metric Extractor raises instead of returning absent. -/
theorem c2_extract_raises_cex :
    extract_metric (("运行时间: ...").toList) timeLabel = .error PyExc.valueError := by
  decide

/-- C2 (amended): the Metric Extractor returns a float or absent — and
in particular never raises — provided every line containing the label
phrase either has no numeric token at all or has a well-formed first
numeric token (at most one dot, at least one digit); a matching line
whose token is malformed instead raises `ValueError` out of
`extract_metric` (caught only later, by `run_benchmark`'s
`except Exception`). -/
theorem c2_no_raise_when_tokens_wellformed (output name : List Char)
    (h : ∀ l ∈ splitLines output, containsSub name l = true →
      tokenOk (firstToken (stripCommas l)) = true) :
    exOk (extract_metric output name) = true :=
  extractFromLines_isOk name (splitLines output) h

/-- Witness for the amended C2 at a concrete output. -/
theorem c2_no_raise_witness :
    exOk (extract_metric (("处理速度: 12.5 MB/s").toList) speedLabel) = true :=
  c2_no_raise_when_tokens_wellformed (("处理速度: 12.5 MB/s").toList) speedLabel (by decide)

/-- C5 counterexample: in this text the first line containing the label
has no numeric token (`firstToken` is `none`), yet the extractor returns
`7` taken from the second matching line — the first matching line does
not determine the result and later matching lines are consulted. -/
theorem c5_first_line_cex :
    containsSub timeLabel (("运行时间: 很快").toList) = true ∧
    firstToken (stripCommas (("运行时间: 很快").toList)) = none ∧
    extract_metric (("运行时间: 很快\n运行时间: 7 秒").toList) timeLabel =
      .ok (some (mkRat 7 1)) := by
  refine ⟨by decide, by decide, by decide⟩

/-- C5 (amended): the extractor's result is determined by the first line
that both contains the label phrase and contains a numeric token: that
line's first token is parsed (raising `ValueError` if malformed);
matching lines with no numeric character are skipped, and if no matching
line yields a token the result is absent. -/
theorem c5_first_token_line_wins (output name : List Char) :
    extract_metric output name = extractSpec name (splitLines output) :=
  extractFromLines_eq_spec name (splitLines output)

/-- C1: for every sample whose two runs both succeed and whose metrics
are all present (the only way a record is emitted), the record's speedup
equals serial elapsed / parallel elapsed when the parallel elapsed time
is positive, and equals 0 when it is ≤ 0 (extracted metrics are never
negative, so ≤ 0 means exactly 0, the guarded branch of line 89). -/
theorem c1_speedup_guarded (c : SampleCase) (tr : List (String × Mode)) (r : Record)
    (h : processSample c = (tr, .ok (some r))) :
    (0 < r.parallel_time → r.speedup = r.serial_time / r.parallel_time) ∧
    (r.parallel_time ≤ 0 → r.speedup = 0) := by
  unfold processSample at h
  simp only [run_benchmark] at h
  cases hser : run_result c.serialEnv with
  | error e =>
    simp only [hser] at h
    exact absurd h (by simp)
  | ok sres =>
    simp only [hser] at h
    cases sres with
    | err m => exact absurd h (by simp)
    | metrics st ss o =>
      cases st with
      | none => exact absurd h (by simp)
      | some stv =>
        cases ss with
        | none => exact absurd h (by simp)
        | some ssv =>
          cases hpar : run_result c.parallelEnv with
          | error e =>
            simp only [hpar] at h
            exact absurd h (by simp)
          | ok pres =>
            simp only [hpar] at h
            cases pres with
            | err m => exact absurd h (by simp)
            | metrics pt ps o2 =>
              cases pt with
              | none => exact absurd h (by simp)
              | some ptv =>
                cases ps with
                | none => exact absurd h (by simp)
                | some psv =>
                  simp only [Prod.mk.injEq] at h
                  obtain ⟨htr, hrec⟩ := h
                  injection hrec with hrec'
                  injection hrec' with hrec''
                  subst hrec''
                  have hnn : 0 ≤ ptv :=
                    run_result_time_nonneg c.parallelEnv (some ptv) (some psv) o2 hpar ptv rfl
                  constructor
                  · intro hpos
                    dsimp only
                    rw [if_pos (ne_of_gt hpos)]
                  · intro hle
                    dsimp only
                    rw [if_neg (not_not_intro (le_antisymm hle hnn))]



/-- Witness for C1 at a fully successful concrete sample. -/
theorem c1_speedup_guarded_witness :
    (0 < recOk.parallel_time → recOk.speedup = recOk.serial_time / recOk.parallel_time) ∧
    (recOk.parallel_time ≤ 0 → recOk.speedup = 0) :=
  c1_speedup_guarded sampleOk
    [(("ok.flac"), Mode.serialMode), (("ok.flac"), Mode.parallelMode)] recOk (by rfl)

/-- C3 counterexample: a per-sample failure that is NOT recovered.  The
first sample's serial run succeeds but its output contains neither
metric, so both metrics are absent; `main` then raises `TypeError` while
formatting `None` with `:.2f` (line 75), the exception aborts the whole
run, and the second (fully successful) sample is never processed. -/
theorem c3_metric_absent_aborts_cex :
    mainLoop [⟨("bad.flac"), 10, ⟨none, .output (("no metrics here").toList)⟩, envOkParallel⟩,
      sampleOk] = ([(("bad.flac"), Mode.serialMode)], .error PyExc.typeError) := by
  decide

/-- C3 (amended): Timeout and ExecutionError per-sample failures are
recovered in either run — a Timeout or raised exception in the serial
run, and any error-dict outcome (Timeout, ExecutionError, caught
`ValueError`) of the parallel run after a fully successful serial run,
each skip the sample, and any skipped sample leaves the rest of the run
unchanged — but an absent required metric on a successful run is not
recovered: it raises an uncaught `TypeError` that aborts the whole
benchmark (see the counterexample). -/
theorem c3_timeout_exec_error_recovered :
    (∀ (n : String) (sz : Nat) (p : ExecEnv),
      (processSample ⟨n, sz, ⟨none, .timeout⟩, p⟩).2 = .ok none) ∧
    (∀ (n : String) (sz : Nat) (m : List Char) (p : ExecEnv),
      (processSample ⟨n, sz, ⟨none, .raiseExc m⟩, p⟩).2 = .ok none) ∧
    (∀ (c : SampleCase) (stv ssv : ℚ) (o m : List Char),
      (run_benchmark [] ("scratch") (modeFlag Mode.serialMode) c.serialEnv).2 =
        .ok (.metrics (some stv) (some ssv) o) →
      (run_benchmark [] ("scratch") (modeFlag Mode.parallelMode) c.parallelEnv).2 =
        .ok (.err m) →
      (processSample c).2 = .ok none) ∧
    (∀ (c : SampleCase) (rest : List SampleCase),
      (processSample c).2 = .ok none →
      (mainLoop (c :: rest)).2 = (mainLoop rest).2) := by
  refine ⟨fun n sz p => rfl, fun n sz m p => rfl,
    fun c stv ssv o m hs hp => ?_, fun c rest h => ?_⟩
  · simp [processSample, hs, hp]
  · cases hps : processSample c with
    | mk tr res =>
      rw [hps] at h
      simp only at h
      subst h
      cases hml : mainLoop rest with
      | mk tr2 res2 =>
        cases res2 with
        | error e => simp [mainLoop, hps, hml]
        | ok recs => simp [mainLoop, hps, hml]

/-- A sample whose serial run succeeds with both metrics but whose
parallel run times out. -/
def sampleParTimeout : SampleCase :=
  ⟨("pt.flac"), 20, envOkSerial, ⟨none, ExtBehavior.timeout⟩⟩

/-- Witness for the amended C3, exercising both failure sites: a sample
whose parallel run times out after a successful serial run is skipped,
and a skipped sample leaves the run's outcome that of the remaining
samples. -/
theorem c3_timeout_exec_error_recovered_witness :
    (processSample sampleParTimeout).2 = .ok none ∧
    (mainLoop [sampleParTimeout]).2 = (mainLoop []).2 :=
  ⟨c3_timeout_exec_error_recovered.2.2.1 sampleParTimeout (mkRat 4 1) (mkRat 10 1)
      ((("运行时间: 4 秒\n处理速度: 10 MB/s").toList).take 500) (("Timeout").toList)
      (by rfl) (by rfl),
    c3_timeout_exec_error_recovered.2.2.2 sampleParTimeout [] (by rfl)⟩

/-- C7: a sample whose serial run fails (its result is an error dict) has
no parallel run attempted — its invocation trace is just the serial call —
and it contributes nothing to the processed records (hence appears in no
bucket summary computed from them). -/
theorem c7_serial_failure_short_circuit (c : SampleCase) (m : List Char)
    (rest : List SampleCase)
    (h : (run_benchmark [] ("scratch") (modeFlag Mode.serialMode) c.serialEnv).2 =
      .ok (.err m)) :
    processSample c = ([(c.name, Mode.serialMode)], .ok none) ∧
    (mainLoop (c :: rest)).1 = (c.name, Mode.serialMode) :: (mainLoop rest).1 ∧
    (mainLoop (c :: rest)).2 = (mainLoop rest).2 := by
  have hps : processSample c = ([(c.name, Mode.serialMode)], .ok none) := by
    unfold processSample
    rw [h]
  refine ⟨hps, ?_, ?_⟩ <;>
  · cases hml : mainLoop rest with
    | mk tr2 res2 =>
      cases res2 with
      | error e => simp [mainLoop, hps, hml]
      | ok recs => simp [mainLoop, hps, hml]


/-- Witness for C7: a sample whose serial run exits non-zero. -/
theorem c7_serial_failure_witness :
    processSample sampleSerialFail = ([(("f.flac"), Mode.serialMode)], .ok none) ∧
    (mainLoop [sampleSerialFail]).1 = (("f.flac"), Mode.serialMode) :: (mainLoop []).1 ∧
    (mainLoop [sampleSerialFail]).2 = (mainLoop []).2 :=
  c7_serial_failure_short_circuit sampleSerialFail (("exit status 1").toList) [] (by decide)

/-- C6: the aggregator emits exactly one summary per non-empty bucket in
the order small, medium, large, with half-open boundaries (99 is small,
exactly 100 is medium, 399 is medium, exactly 400 is large), each summary
carrying the bucket's record count and mean speedup, empty buckets
omitted: the code aggregation equals the specification-side aggregator. -/
theorem c6_bucketed_aggregation :
    (inBucketB Bucket.small 99 = true ∧ inBucketB Bucket.small 100 = false ∧
     inBucketB Bucket.medium 100 = true ∧ inBucketB Bucket.medium 399 = true ∧
     inBucketB Bucket.medium 400 = false ∧ inBucketB Bucket.large 400 = true) ∧
    ∀ results : List Record, bucketSummaries results = specAggregate results := by
  refine ⟨by decide, fun results => ?_⟩
  unfold bucketSummaries specAggregate
  simp only [List.filterMap_cons, List.filterMap_nil]
  by_cases h1 : (results.filter (fun r => r.size_mb < 100)).isEmpty <;>
  by_cases h2 : (results.filter (fun r => 100 ≤ r.size_mb && r.size_mb < 400)).isEmpty <;>
  by_cases h3 : (results.filter (fun r => r.size_mb ≥ 400)).isEmpty <;>
  simp [h1, h2, h3, inBucketB]

